import Mathlib

/-!
# Verification of `powerdetector.py`

A shallow embedding of the debounced power-alarm monitor
(`src/powerdetector.py`) and proofs of its specified properties.

Modelling conventions:
* Python floats are modelled as exact rationals (`ℚ`); the program's
  comparisons and arithmetic carry over verbatim.
* The counter `numberOfAlarmsLeftToTrigger` is an integer (`ℤ`), as in the
  source, where it may in principle go negative.
* Wall-clock time (`time.time()`) is modelled by a rational timestamp
  supplied to each loop cycle.
* External effects (SMTP session, wiringpi tone calls) are modelled by an
  `Except String Unit` outcome supplied by the environment: `ok` when the
  underlying library calls succeed, `error` when one of them raises.
* A notification request is represented by its severity (the message text
  carries no control flow); dispatch to the handler list is modelled as the
  list of `(handler, severity)` calls the loop makes.
-/

namespace PowerDetector

/-! ## Python `logging` severity constants -/

def logging.NOTSET : ℕ := 0

def logging.DEBUG : ℕ := 10

def logging.INFO : ℕ := 20

def logging.WARNING : ℕ := 30

def logging.ERROR : ℕ := 40

def logging.CRITICAL : ℕ := 50

/-! ## Data model -/

/-- The `AlarmState` enumeration (lines 29-32).  `ALARMING_VOLTAGE` is
declared in the source but never assigned. -/
inductive AlarmState where
  | OK
  | ALARMING_VOLTAGE
  | ALARM
deriving DecidableEq, Repr

/-- The mutable loop-local state of `monitor` (lines 114-121): the current
alarm state, the debounce counter `numberOfAlarmsLeftToTrigger`, and the
`readPeriod` used for the next `time.sleep`. -/
structure MonitorState where
  alarmState : AlarmState
  numberOfAlarmsLeftToTrigger : ℤ
  readPeriod : ℚ
deriving DecidableEq, Repr

/-- `ADC_SCALE_TO_V = 1.8 / 1023` (line 112): 10-bit ADC over a 1.8V
reference. -/
def ADC_SCALE_TO_V : ℚ := 1.8 / 1023

/-- `adcValVolts = adcVal * ADC_SCALE_TO_V` (line 131): the voltage reading
fed to the state machine, from the raw integer sample. -/
def adcValVolts (adcVal : ℕ) : ℚ := adcVal * ADC_SCALE_TO_V

/-! ## The alarm state machine

One iteration of the alarm-decision part of the `while True` body
(lines 129-156), given the scaled voltage of this cycle's sample.  The
first action is the reset `readPeriod = readPeriodState` (line 129); the
result is the updated state together with the severity of the produced
notification request, if any (`logging.CRITICAL` on the alarm edge,
line 144; nothing otherwise). -/

def monitorStep (alarmMinVoltage : ℚ) (alarmNTriggers : ℤ) (readPeriodState : ℚ)
    (s : MonitorState) (adcValVolts : ℚ) : MonitorState × Option ℕ :=
  let readPeriod := readPeriodState
  if s.alarmState = AlarmState.OK then
    if adcValVolts < alarmMinVoltage then
      -- Force a faster refresh (line 138)
      let readPeriod := (1 : ℚ)
      let n := s.numberOfAlarmsLeftToTrigger - 1
      if n < 1 then
        ({ alarmState := AlarmState.ALARM, numberOfAlarmsLeftToTrigger := n,
           readPeriod := readPeriod }, some logging.CRITICAL)
      else
        ({ alarmState := s.alarmState, numberOfAlarmsLeftToTrigger := n,
           readPeriod := readPeriod }, none)
    else
      -- The alarms must be consecutive (lines 146-147)
      ({ alarmState := s.alarmState, numberOfAlarmsLeftToTrigger := alarmNTriggers,
         readPeriod := readPeriod }, none)
  else
    if adcValVolts < alarmMinVoltage then
      -- Reset if still in alarm. The recovery must be consecutive (line 151)
      ({ alarmState := s.alarmState, numberOfAlarmsLeftToTrigger := 0,
         readPeriod := readPeriod }, none)
    else
      let n := s.numberOfAlarmsLeftToTrigger + 1
      if n ≥ alarmNTriggers then
        ({ alarmState := AlarmState.OK, numberOfAlarmsLeftToTrigger := n,
           readPeriod := readPeriod }, none)
      else
        ({ alarmState := s.alarmState, numberOfAlarmsLeftToTrigger := n,
           readPeriod := readPeriod }, none)

/-- Iterate `monitorStep` over a list of scaled voltage readings, collecting
the severities of all produced notification requests in order. -/
def runReadings (alarmMinVoltage : ℚ) (alarmNTriggers : ℤ) (readPeriodState : ℚ) :
    MonitorState → List ℚ → MonitorState × List ℕ
  | s, [] => (s, [])
  | s, v :: vs =>
    let r := monitorStep alarmMinVoltage alarmNTriggers readPeriodState s v
    let rest := runReadings alarmMinVoltage alarmNTriggers readPeriodState r.1 vs
    (rest.1, r.2.toList ++ rest.2)

/-! ## Heartbeat and dispatch -/

/-- The initial heartbeat deadline `nextInfoTrigger = time.time() + infoPeriod`
(line 124). -/
def nextInfoTriggerInit (now infoPeriod : ℚ) : ℚ := now + infoPeriod

/-- The heartbeat check of one cycle (lines 159-163): if the current time has
passed `nextInfoTrigger`, fire (second component `true`) and recompute the
deadline as `now + infoPeriod`; otherwise keep the deadline. -/
def infoTriggerStep (infoPeriod now nextInfoTrigger : ℚ) : ℚ × Bool :=
  if now > nextInfoTrigger then (now + infoPeriod, true) else (nextInfoTrigger, false)

/-- The `(handler, severity)` calls produced by the alarm-edge dispatch loop
(lines 142-144): every registered handler is triggered once with the produced
request's severity; no calls when no request was produced. -/
def alarmDispatchCalls (alarmHandlers : List ℕ) (request : Option ℕ) : List (ℕ × ℕ) :=
  match request with
  | some severity => alarmHandlers.map (fun handler => (handler, severity))
  | none => []

/-- The `(handler, severity)` calls produced by the heartbeat dispatch loop
(lines 160-161): every registered handler is triggered once with
`logging.INFO` when the heartbeat fires. -/
def infoDispatchCalls (alarmHandlers : List ℕ) (fired : Bool) : List (ℕ × ℕ) :=
  if fired then alarmHandlers.map (fun handler => (handler, logging.INFO)) else []

/-- One full cycle of the `while True` body (lines 127-163): sample a raw ADC
value, scale it, run the alarm state machine, dispatch the alarm-edge request
(if any) to every handler, then run the heartbeat check and dispatch the INFO
status message to every handler if it fired.  Returns the new monitor state,
the new heartbeat deadline, and the list of handler calls made this cycle. -/
def monitorCycle (alarmMinVoltage : ℚ) (alarmNTriggers : ℤ)
    (readPeriodState infoPeriod : ℚ) (alarmHandlers : List ℕ)
    (s : MonitorState) (nextInfoTrigger : ℚ) (adcVal : ℕ) (now : ℚ) :
    MonitorState × ℚ × List (ℕ × ℕ) :=
  let r := monitorStep alarmMinVoltage alarmNTriggers readPeriodState s (adcValVolts adcVal)
  let hb := infoTriggerStep infoPeriod now nextInfoTrigger
  (r.1, hb.1, alarmDispatchCalls alarmHandlers r.2 ++ infoDispatchCalls alarmHandlers hb.2)

/-! ## Startup configuration handling (`__main__`, lines 179-189) -/

/-- Lines 180-182: the clamped trigger count computed in `__main__`
(`alarmNTriggers = 1; if args.alarm_tri > 1: alarmNTriggers = args.alarm_tri`). -/
def main_alarmNTriggers (alarm_tri : ℤ) : ℤ :=
  if alarm_tri > 1 then alarm_tri else 1

/-- Line 189: the trigger-count argument actually passed to `monitor` is the
raw `args.alarm_tri`, not the clamped `alarmNTriggers` computed just above. -/
def monitor_arg_alarmNTriggers (alarm_tri : ℤ) : ℤ := alarm_tri

/-! ## Notification sinks (`AlarmHandler` subclasses)

The environment's contribution (whether the underlying SMTP or wiringpi
library calls raise) is an `Except String Unit` parameter; the model returns
what escapes `trigger` to the caller, and for the e-mail handler also the log
entries written. -/

/-- `BuzzerAlarmHandler.trigger` (lines 54-65): on severities `>= ERROR` it
runs the wiringpi tone sequence with NO surrounding try/except, so whatever
outcome those calls have escapes to the caller unchanged; on lower severities
it does nothing. -/
def BuzzerAlarmHandler.trigger (severity : ℕ) (wpiOutcome : Except String Unit) :
    Except String Unit :=
  if severity ≥ logging.ERROR then wpiOutcome else Except.ok ()

/-- `EMailAlarmHandler.trigger` (lines 84-104): the whole SMTP session
(connect, ehlo, starttls, login, sendmail, quit) sits inside one
`try/except Exception` block whose handler logs
`'Failed to send e-mail ...'` at CRITICAL, so nothing escapes to the caller.
Returns (what escapes, log entries written). -/
def EMailAlarmHandler.trigger (smtpOutcome : Except String Unit) :
    Except String Unit × List (ℕ × String) :=
  match smtpOutcome with
  | Except.ok () => (Except.ok (), [])
  | Except.error e =>
      (Except.ok (), [(logging.CRITICAL, "Failed to send e-mail " ++ e)])

/-- The driver's dispatch loop `for handler in alarmHandlers:
handler.trigger(...)` (e.g. lines 108-109, 142-144, 160-161) has no
try/except: it runs the handlers in order and an escaping exception aborts
the loop (and `monitor` itself) at that handler. -/
def dispatchAll : List (Except String Unit) → Except String Unit
  | [] => Except.ok ()
  | Except.ok () :: rest => dispatchAll rest
  | Except.error e :: _ => Except.error e

/-! ## Branch lemmas for `monitorStep` -/

lemma monitorStep_ok_good (th : ℚ) (N : ℤ) (ps : ℚ) (s : MonitorState) (v : ℚ)
    (h1 : s.alarmState = AlarmState.OK) (h2 : ¬ v < th) :
    monitorStep th N ps s v
      = ({ alarmState := AlarmState.OK, numberOfAlarmsLeftToTrigger := N,
           readPeriod := ps }, none) := by
  simp [monitorStep, h1, h2]

lemma monitorStep_ok_bad_trigger (th : ℚ) (N : ℤ) (ps : ℚ) (s : MonitorState) (v : ℚ)
    (h1 : s.alarmState = AlarmState.OK) (h2 : v < th)
    (h3 : s.numberOfAlarmsLeftToTrigger - 1 < 1) :
    monitorStep th N ps s v
      = ({ alarmState := AlarmState.ALARM,
           numberOfAlarmsLeftToTrigger := s.numberOfAlarmsLeftToTrigger - 1,
           readPeriod := 1 }, some logging.CRITICAL) := by
  simp [monitorStep, h1, h2, h3]

lemma monitorStep_ok_bad_cont (th : ℚ) (N : ℤ) (ps : ℚ) (s : MonitorState) (v : ℚ)
    (h1 : s.alarmState = AlarmState.OK) (h2 : v < th)
    (h3 : ¬ s.numberOfAlarmsLeftToTrigger - 1 < 1) :
    monitorStep th N ps s v
      = ({ alarmState := AlarmState.OK,
           numberOfAlarmsLeftToTrigger := s.numberOfAlarmsLeftToTrigger - 1,
           readPeriod := 1 }, none) := by
  simp [monitorStep, h1, h2, h3]

lemma monitorStep_alarm_bad (th : ℚ) (N : ℤ) (ps : ℚ) (s : MonitorState) (v : ℚ)
    (h1 : ¬ s.alarmState = AlarmState.OK) (h2 : v < th) :
    monitorStep th N ps s v
      = ({ alarmState := s.alarmState, numberOfAlarmsLeftToTrigger := 0,
           readPeriod := ps }, none) := by
  simp [monitorStep, h1, h2]

lemma monitorStep_alarm_good_rec (th : ℚ) (N : ℤ) (ps : ℚ) (s : MonitorState) (v : ℚ)
    (h1 : ¬ s.alarmState = AlarmState.OK) (h2 : ¬ v < th)
    (h3 : s.numberOfAlarmsLeftToTrigger + 1 ≥ N) :
    monitorStep th N ps s v
      = ({ alarmState := AlarmState.OK,
           numberOfAlarmsLeftToTrigger := s.numberOfAlarmsLeftToTrigger + 1,
           readPeriod := ps }, none) := by
  simp [monitorStep, h1, h2, h3]

lemma monitorStep_alarm_good_cont (th : ℚ) (N : ℤ) (ps : ℚ) (s : MonitorState) (v : ℚ)
    (h1 : ¬ s.alarmState = AlarmState.OK) (h2 : ¬ v < th)
    (h3 : ¬ s.numberOfAlarmsLeftToTrigger + 1 ≥ N) :
    monitorStep th N ps s v
      = ({ alarmState := s.alarmState,
           numberOfAlarmsLeftToTrigger := s.numberOfAlarmsLeftToTrigger + 1,
           readPeriod := ps }, none) := by
  simp [monitorStep, h1, h2, h3]

lemma runReadings_nil (th : ℚ) (N : ℤ) (ps : ℚ) (s : MonitorState) :
    runReadings th N ps s [] = (s, []) := rfl

lemma runReadings_cons (th : ℚ) (N : ℤ) (ps : ℚ) (s : MonitorState) (v : ℚ)
    (vs : List ℚ) :
    runReadings th N ps s (v :: vs)
      = ((runReadings th N ps (monitorStep th N ps s v).1 vs).1,
         (monitorStep th N ps s v).2.toList
           ++ (runReadings th N ps (monitorStep th N ps s v).1 vs).2) := rfl

/-! ## Runs of consecutive bad readings from the `OK` state -/

lemma runReadings_ok_bad_lt (th : ℚ) (N : ℤ) (ps : ℚ) :
    ∀ (vs : List ℚ) (s : MonitorState), (∀ v ∈ vs, v < th) →
      s.alarmState = AlarmState.OK →
      (vs.length : ℤ) < s.numberOfAlarmsLeftToTrigger →
      (runReadings th N ps s vs).1.alarmState = AlarmState.OK ∧
      (runReadings th N ps s vs).1.numberOfAlarmsLeftToTrigger
        = s.numberOfAlarmsLeftToTrigger - vs.length ∧
      (runReadings th N ps s vs).2 = [] := by
  intro vs
  induction vs with
  | nil =>
    intro s _ h1 _
    exact ⟨h1, by simp [runReadings_nil], rfl⟩
  | cons v vs ih =>
    intro s hbad h1 hlen
    have hv : v < th := hbad v (List.mem_cons_self _ _)
    have hbad' : ∀ w ∈ vs, w < th := fun w hw => hbad w (List.mem_cons_of_mem _ hw)
    have hlen1 : ((v :: vs).length : ℤ) = (vs.length : ℤ) + 1 := by
      simp
    have h3 : ¬ s.numberOfAlarmsLeftToTrigger - 1 < 1 := by
      rw [hlen1] at hlen; omega
    rw [runReadings_cons, monitorStep_ok_bad_cont th N ps s v h1 hv h3]
    obtain ⟨a, b, c⟩ := ih
      { alarmState := AlarmState.OK,
        numberOfAlarmsLeftToTrigger := s.numberOfAlarmsLeftToTrigger - 1,
        readPeriod := 1 }
      hbad' rfl
      (show (vs.length : ℤ) < s.numberOfAlarmsLeftToTrigger - 1 by
        rw [hlen1] at hlen; omega)
    have b' : (runReadings th N ps
        { alarmState := AlarmState.OK,
          numberOfAlarmsLeftToTrigger := s.numberOfAlarmsLeftToTrigger - 1,
          readPeriod := 1 } vs).1.numberOfAlarmsLeftToTrigger
        = s.numberOfAlarmsLeftToTrigger - 1 - vs.length := b
    refine ⟨a, ?_, by simpa using c⟩
    show (runReadings th N ps
        { alarmState := AlarmState.OK,
          numberOfAlarmsLeftToTrigger := s.numberOfAlarmsLeftToTrigger - 1,
          readPeriod := 1 } vs).1.numberOfAlarmsLeftToTrigger
        = s.numberOfAlarmsLeftToTrigger - ((v :: vs).length : ℤ)
    rw [hlen1, b']
    omega

lemma runReadings_ok_bad_eq (th : ℚ) (N : ℤ) (ps : ℚ) :
    ∀ (vs : List ℚ) (s : MonitorState), (∀ v ∈ vs, v < th) →
      s.alarmState = AlarmState.OK →
      1 ≤ s.numberOfAlarmsLeftToTrigger →
      (vs.length : ℤ) = s.numberOfAlarmsLeftToTrigger →
      (runReadings th N ps s vs).1.alarmState = AlarmState.ALARM ∧
      (runReadings th N ps s vs).1.numberOfAlarmsLeftToTrigger = 0 ∧
      (runReadings th N ps s vs).2 = [logging.CRITICAL] := by
  intro vs
  induction vs with
  | nil =>
    intro s _ _ hpos hlen
    exfalso
    simp at hlen
    omega
  | cons v vs ih =>
    intro s hbad h1 hpos hlen
    have hv : v < th := hbad v (List.mem_cons_self _ _)
    have hbad' : ∀ w ∈ vs, w < th := fun w hw => hbad w (List.mem_cons_of_mem _ hw)
    have hlen1 : (vs.length : ℤ) + 1 = s.numberOfAlarmsLeftToTrigger := by
      simpa using hlen
    by_cases hone : s.numberOfAlarmsLeftToTrigger = 1
    · have h3 : s.numberOfAlarmsLeftToTrigger - 1 < 1 := by omega
      have hnil : vs = [] := by
        have : (vs.length : ℤ) = 0 := by omega
        simpa using this
      subst hnil
      rw [runReadings_cons, monitorStep_ok_bad_trigger th N ps s v h1 hv h3]
      refine ⟨rfl, ?_, rfl⟩
      show s.numberOfAlarmsLeftToTrigger - 1 = 0
      omega
    · have h3 : ¬ s.numberOfAlarmsLeftToTrigger - 1 < 1 := by omega
      rw [runReadings_cons, monitorStep_ok_bad_cont th N ps s v h1 hv h3]
      obtain ⟨a, b, c⟩ := ih
        { alarmState := AlarmState.OK,
          numberOfAlarmsLeftToTrigger := s.numberOfAlarmsLeftToTrigger - 1,
          readPeriod := 1 }
        hbad' rfl
        (show (1 : ℤ) ≤ s.numberOfAlarmsLeftToTrigger - 1 by omega)
        (show (vs.length : ℤ) = s.numberOfAlarmsLeftToTrigger - 1 by omega)
      exact ⟨a, b, by simpa using c⟩

/-! ## Runs of consecutive good readings from the `ALARM` state -/

lemma runReadings_alarm_good_lt (th : ℚ) (N : ℤ) (ps : ℚ) :
    ∀ (vs : List ℚ) (s : MonitorState), (∀ v ∈ vs, ¬ v < th) →
      s.alarmState = AlarmState.ALARM →
      s.numberOfAlarmsLeftToTrigger + (vs.length : ℤ) < N →
      (runReadings th N ps s vs).1.alarmState = AlarmState.ALARM ∧
      (runReadings th N ps s vs).1.numberOfAlarmsLeftToTrigger
        = s.numberOfAlarmsLeftToTrigger + vs.length ∧
      (runReadings th N ps s vs).2 = [] := by
  intro vs
  induction vs with
  | nil =>
    intro s _ h1 _
    exact ⟨h1, by simp [runReadings_nil], rfl⟩
  | cons v vs ih =>
    intro s hgood h1 hlen
    have hv : ¬ v < th := hgood v (List.mem_cons_self _ _)
    have hgood' : ∀ w ∈ vs, ¬ w < th := fun w hw => hgood w (List.mem_cons_of_mem _ hw)
    have h1' : ¬ s.alarmState = AlarmState.OK := by rw [h1]; intro hq; exact absurd hq (by decide)
    have hlen1 : s.numberOfAlarmsLeftToTrigger + ((vs.length : ℤ) + 1) < N := by
      have : ((v :: vs).length : ℤ) = (vs.length : ℤ) + 1 := by simp
      rw [this] at hlen
      omega
    have h3 : ¬ s.numberOfAlarmsLeftToTrigger + 1 ≥ N := by omega
    rw [runReadings_cons, monitorStep_alarm_good_cont th N ps s v h1' hv h3]
    obtain ⟨a, b, c⟩ := ih
      { alarmState := s.alarmState,
        numberOfAlarmsLeftToTrigger := s.numberOfAlarmsLeftToTrigger + 1,
        readPeriod := ps }
      hgood' h1
      (show s.numberOfAlarmsLeftToTrigger + 1 + (vs.length : ℤ) < N by omega)
    have b' : (runReadings th N ps
        { alarmState := s.alarmState,
          numberOfAlarmsLeftToTrigger := s.numberOfAlarmsLeftToTrigger + 1,
          readPeriod := ps } vs).1.numberOfAlarmsLeftToTrigger
        = s.numberOfAlarmsLeftToTrigger + 1 + vs.length := b
    refine ⟨a, ?_, by simpa using c⟩
    show (runReadings th N ps
        { alarmState := s.alarmState,
          numberOfAlarmsLeftToTrigger := s.numberOfAlarmsLeftToTrigger + 1,
          readPeriod := ps } vs).1.numberOfAlarmsLeftToTrigger
        = s.numberOfAlarmsLeftToTrigger + (((v :: vs).length : ℤ))
    rw [b']
    have : ((v :: vs).length : ℤ) = (vs.length : ℤ) + 1 := by simp
    rw [this]
    omega

lemma runReadings_alarm_good_eq (th : ℚ) (N : ℤ) (ps : ℚ) :
    ∀ (vs : List ℚ) (s : MonitorState), (∀ v ∈ vs, ¬ v < th) →
      s.alarmState = AlarmState.ALARM →
      1 ≤ vs.length →
      s.numberOfAlarmsLeftToTrigger + (vs.length : ℤ) = N →
      (runReadings th N ps s vs).1.alarmState = AlarmState.OK ∧
      (runReadings th N ps s vs).1.numberOfAlarmsLeftToTrigger = N ∧
      (runReadings th N ps s vs).2 = [] := by
  intro vs
  induction vs with
  | nil =>
    intro s _ _ habs _
    exact absurd habs (by simp)
  | cons v vs ih =>
    intro s hgood h1 _ hlen
    have hv : ¬ v < th := hgood v (List.mem_cons_self _ _)
    have hgood' : ∀ w ∈ vs, ¬ w < th := fun w hw => hgood w (List.mem_cons_of_mem _ hw)
    have h1' : ¬ s.alarmState = AlarmState.OK := by rw [h1]; intro hq; exact absurd hq (by decide)
    have hlen1 : s.numberOfAlarmsLeftToTrigger + ((vs.length : ℤ) + 1) = N := by
      have : ((v :: vs).length : ℤ) = (vs.length : ℤ) + 1 := by simp
      rw [this] at hlen
      omega
    by_cases hnil : vs = []
    · subst hnil
      have h3 : s.numberOfAlarmsLeftToTrigger + 1 ≥ N := by simp at hlen1; omega
      rw [runReadings_cons, monitorStep_alarm_good_rec th N ps s v h1' hv h3]
      refine ⟨rfl, ?_, rfl⟩
      show s.numberOfAlarmsLeftToTrigger + 1 = N
      simp at hlen1
      omega
    · have hvs : 1 ≤ vs.length := List.length_pos.mpr hnil
      have h3 : ¬ s.numberOfAlarmsLeftToTrigger + 1 ≥ N := by
        have : (1 : ℤ) ≤ (vs.length : ℤ) := by exact_mod_cast hvs
        omega
      rw [runReadings_cons, monitorStep_alarm_good_cont th N ps s v h1' hv h3]
      obtain ⟨a, b, c⟩ := ih
        { alarmState := s.alarmState,
          numberOfAlarmsLeftToTrigger := s.numberOfAlarmsLeftToTrigger + 1,
          readPeriod := ps }
        hgood' h1 hvs
        (show s.numberOfAlarmsLeftToTrigger + 1 + (vs.length : ℤ) = N by omega)
      exact ⟨a, b, by simpa using c⟩

/-! ## The counter-range invariant -/

/-- The state-dependent range of the debounce counter: in `OK` it lies in
`[1, N]`, in any other state (only `ALARM` is reachable) in `[0, N-1]`. -/
def counterInv (N : ℤ) (s : MonitorState) : Prop :=
  (s.alarmState = AlarmState.OK →
    1 ≤ s.numberOfAlarmsLeftToTrigger ∧ s.numberOfAlarmsLeftToTrigger ≤ N) ∧
  (¬ s.alarmState = AlarmState.OK →
    0 ≤ s.numberOfAlarmsLeftToTrigger ∧ s.numberOfAlarmsLeftToTrigger ≤ N - 1)

lemma counterInv_mk (N : ℤ) (a : AlarmState) (n : ℤ) (p : ℚ)
    (h1 : a = AlarmState.OK → 1 ≤ n ∧ n ≤ N)
    (h2 : ¬ a = AlarmState.OK → 0 ≤ n ∧ n ≤ N - 1) :
    counterInv N { alarmState := a, numberOfAlarmsLeftToTrigger := n, readPeriod := p } :=
  ⟨fun hq => h1 hq, fun hq => h2 hq⟩

lemma counterInv_init (N : ℤ) (p : ℚ) (hN : 1 ≤ N) :
    counterInv N { alarmState := AlarmState.OK, numberOfAlarmsLeftToTrigger := N,
                   readPeriod := p } :=
  counterInv_mk N AlarmState.OK N p (fun _ => ⟨hN, le_refl N⟩) (fun hq => absurd rfl hq)

lemma monitorStep_counterInv (th : ℚ) (N : ℤ) (ps : ℚ) (hN : 1 ≤ N)
    (s : MonitorState) (v : ℚ) (h : counterInv N s) :
    counterInv N (monitorStep th N ps s v).1 := by
  by_cases h1 : s.alarmState = AlarmState.OK
  · have hc := h.1 h1
    by_cases h2 : v < th
    · by_cases h3 : s.numberOfAlarmsLeftToTrigger - 1 < 1
      · rw [monitorStep_ok_bad_trigger th N ps s v h1 h2 h3]
        exact counterInv_mk N AlarmState.ALARM (s.numberOfAlarmsLeftToTrigger - 1) 1
          (fun hq => absurd hq (by decide)) (fun _ => ⟨by omega, by omega⟩)
      · rw [monitorStep_ok_bad_cont th N ps s v h1 h2 h3]
        exact counterInv_mk N AlarmState.OK (s.numberOfAlarmsLeftToTrigger - 1) 1
          (fun _ => ⟨by omega, by omega⟩) (fun hq => absurd rfl hq)
    · rw [monitorStep_ok_good th N ps s v h1 h2]
      exact counterInv_mk N AlarmState.OK N ps
        (fun _ => ⟨hN, le_refl N⟩) (fun hq => absurd rfl hq)
  · have hc := h.2 h1
    by_cases h2 : v < th
    · rw [monitorStep_alarm_bad th N ps s v h1 h2]
      exact counterInv_mk N s.alarmState 0 ps
        (fun hq => absurd hq h1) (fun _ => ⟨le_refl 0, by omega⟩)
    · by_cases h3 : s.numberOfAlarmsLeftToTrigger + 1 ≥ N
      · rw [monitorStep_alarm_good_rec th N ps s v h1 h2 h3]
        exact counterInv_mk N AlarmState.OK (s.numberOfAlarmsLeftToTrigger + 1) ps
          (fun _ => ⟨by omega, by omega⟩) (fun hq => absurd rfl hq)
      · rw [monitorStep_alarm_good_cont th N ps s v h1 h2 h3]
        exact counterInv_mk N s.alarmState (s.numberOfAlarmsLeftToTrigger + 1) ps
          (fun hq => absurd hq h1) (fun _ => ⟨by omega, by omega⟩)

lemma runReadings_counterInv (th : ℚ) (N : ℤ) (ps : ℚ) (hN : 1 ≤ N) :
    ∀ (vs : List ℚ) (s : MonitorState), counterInv N s →
      counterInv N (runReadings th N ps s vs).1 := by
  intro vs
  induction vs with
  | nil => intro s h; exact h
  | cons v vs ih =>
    intro s h
    rw [runReadings_cons]
    exact ih (monitorStep th N ps s v).1 (monitorStep_counterInv th N ps hN s v h)

/-! ## Claim theorems -/

/-- C1: for every trigger count `N ≥ 1` and every threshold, starting from
`OK` (NORMAL) with the counter at `N`: any run of fewer than `N` consecutive
strictly-below-threshold readings leaves the machine in `OK` with the counter
at `N` minus the run length and produces no request; a run of exactly `N` such
readings ends in `ALARM` (producing the single CRITICAL request); and any
single at/above-threshold reading taken while `OK` resets the counter to `N`
and keeps the state `OK`. -/
theorem C1_exactly_N_consecutive_bad_readings_alarm
    (alarmMinVoltage : ℚ) (alarmNTriggers : ℤ) (readPeriodState p : ℚ)
    (vs : List ℚ) (hN : 1 ≤ alarmNTriggers)
    (hbad : ∀ v ∈ vs, v < alarmMinVoltage) :
    (((vs.length : ℤ) < alarmNTriggers →
      (runReadings alarmMinVoltage alarmNTriggers readPeriodState
        ⟨AlarmState.OK, alarmNTriggers, p⟩ vs).1.alarmState = AlarmState.OK ∧
      (runReadings alarmMinVoltage alarmNTriggers readPeriodState
        ⟨AlarmState.OK, alarmNTriggers, p⟩ vs).1.numberOfAlarmsLeftToTrigger
          = alarmNTriggers - vs.length ∧
      (runReadings alarmMinVoltage alarmNTriggers readPeriodState
        ⟨AlarmState.OK, alarmNTriggers, p⟩ vs).2 = []) ∧
    ((vs.length : ℤ) = alarmNTriggers →
      (runReadings alarmMinVoltage alarmNTriggers readPeriodState
        ⟨AlarmState.OK, alarmNTriggers, p⟩ vs).1.alarmState = AlarmState.ALARM ∧
      (runReadings alarmMinVoltage alarmNTriggers readPeriodState
        ⟨AlarmState.OK, alarmNTriggers, p⟩ vs).2 = [logging.CRITICAL]) ∧
    (∀ (s : MonitorState) (g : ℚ), s.alarmState = AlarmState.OK →
      ¬ g < alarmMinVoltage →
      (monitorStep alarmMinVoltage alarmNTriggers readPeriodState s g).1.alarmState
        = AlarmState.OK ∧
      (monitorStep alarmMinVoltage alarmNTriggers readPeriodState
        s g).1.numberOfAlarmsLeftToTrigger = alarmNTriggers)) := by
  refine ⟨?_, ?_, ?_⟩
  · intro hlen
    exact runReadings_ok_bad_lt alarmMinVoltage alarmNTriggers readPeriodState vs
      ⟨AlarmState.OK, alarmNTriggers, p⟩ hbad rfl hlen
  · intro hlen
    obtain ⟨a, _, c⟩ := runReadings_ok_bad_eq alarmMinVoltage alarmNTriggers
      readPeriodState vs ⟨AlarmState.OK, alarmNTriggers, p⟩ hbad rfl hN hlen
    exact ⟨a, c⟩
  · intro s g h1 h2
    rw [monitorStep_ok_good alarmMinVoltage alarmNTriggers readPeriodState s g h1 h2]
    exact ⟨rfl, rfl⟩

/-- C1 witness: `N = 2`, threshold `1`; the two bad readings `[0, 0]` from
`OK` with counter `2` end in `ALARM` with exactly one CRITICAL request. -/
theorem C1_exactly_N_consecutive_bad_readings_alarm_witness :
    (1 : ℤ) ≤ 2 ∧ (∀ v ∈ ([0, 0] : List ℚ), v < 1) ∧
    ((runReadings 1 2 2 ⟨AlarmState.OK, 2, 2⟩ [0, 0]).1.alarmState
        = AlarmState.ALARM ∧
      (runReadings 1 2 2 ⟨AlarmState.OK, 2, 2⟩ [0, 0]).2 = [logging.CRITICAL]) :=
  ⟨by decide, by decide,
    (C1_exactly_N_consecutive_bad_readings_alarm 1 2 2 2 [0, 0]
      (by decide) (by decide)).2.1 (by decide)⟩

/-- C2: for every trigger count `N ≥ 1`, starting from `ALARM` with the
recovery counter at `0` (its value on entering `ALARM`): any run of fewer
than `N` consecutive at/above-threshold readings leaves the machine in
`ALARM` with the counter equal to the run length; a run of exactly `N` such
readings ends in `OK` (no request produced); and any single below-threshold
reading taken while `ALARM` resets the counter to `0` and keeps the state
`ALARM`. -/
theorem C2_exactly_N_consecutive_good_readings_recover
    (alarmMinVoltage : ℚ) (alarmNTriggers : ℤ) (readPeriodState p : ℚ)
    (vs : List ℚ) (hN : 1 ≤ alarmNTriggers)
    (hgood : ∀ v ∈ vs, ¬ v < alarmMinVoltage) :
    (((vs.length : ℤ) < alarmNTriggers →
      (runReadings alarmMinVoltage alarmNTriggers readPeriodState
        ⟨AlarmState.ALARM, 0, p⟩ vs).1.alarmState = AlarmState.ALARM ∧
      (runReadings alarmMinVoltage alarmNTriggers readPeriodState
        ⟨AlarmState.ALARM, 0, p⟩ vs).1.numberOfAlarmsLeftToTrigger = vs.length ∧
      (runReadings alarmMinVoltage alarmNTriggers readPeriodState
        ⟨AlarmState.ALARM, 0, p⟩ vs).2 = []) ∧
    ((vs.length : ℤ) = alarmNTriggers →
      (runReadings alarmMinVoltage alarmNTriggers readPeriodState
        ⟨AlarmState.ALARM, 0, p⟩ vs).1.alarmState = AlarmState.OK ∧
      (runReadings alarmMinVoltage alarmNTriggers readPeriodState
        ⟨AlarmState.ALARM, 0, p⟩ vs).1.numberOfAlarmsLeftToTrigger = alarmNTriggers ∧
      (runReadings alarmMinVoltage alarmNTriggers readPeriodState
        ⟨AlarmState.ALARM, 0, p⟩ vs).2 = []) ∧
    (∀ (s : MonitorState) (w : ℚ), s.alarmState = AlarmState.ALARM →
      w < alarmMinVoltage →
      (monitorStep alarmMinVoltage alarmNTriggers readPeriodState s w).1.alarmState
        = AlarmState.ALARM ∧
      (monitorStep alarmMinVoltage alarmNTriggers readPeriodState
        s w).1.numberOfAlarmsLeftToTrigger = 0)) := by
  refine ⟨?_, ?_, ?_⟩
  · intro hlen
    obtain ⟨a, b, c⟩ := runReadings_alarm_good_lt alarmMinVoltage alarmNTriggers
      readPeriodState vs ⟨AlarmState.ALARM, 0, p⟩ hgood rfl
      (show (0 : ℤ) + (vs.length : ℤ) < alarmNTriggers by omega)
    have b' : (runReadings alarmMinVoltage alarmNTriggers readPeriodState
        ⟨AlarmState.ALARM, 0, p⟩ vs).1.numberOfAlarmsLeftToTrigger
        = 0 + (vs.length : ℤ) := b
    exact ⟨a, by omega, c⟩
  · intro hlen
    have hvs : 1 ≤ vs.length := by omega
    obtain ⟨a, b, c⟩ := runReadings_alarm_good_eq alarmMinVoltage alarmNTriggers
      readPeriodState vs ⟨AlarmState.ALARM, 0, p⟩ hgood rfl hvs
      (show (0 : ℤ) + (vs.length : ℤ) = alarmNTriggers by omega)
    exact ⟨a, b, c⟩
  · intro s w h1 h2
    have h1' : ¬ s.alarmState = AlarmState.OK := by
      rw [h1]; intro hq; exact absurd hq (by decide)
    rw [monitorStep_alarm_bad alarmMinVoltage alarmNTriggers readPeriodState s w h1' h2]
    exact ⟨h1, rfl⟩

/-- C2 witness: `N = 1`, threshold `1`; the single good reading `[2]` from
`ALARM` with counter `0` recovers to `OK` with counter `1` and no request. -/
theorem C2_exactly_N_consecutive_good_readings_recover_witness :
    (1 : ℤ) ≤ 1 ∧ (∀ v ∈ ([2] : List ℚ), ¬ v < 1) ∧
    ((runReadings 1 1 2 ⟨AlarmState.ALARM, 0, 2⟩ [2]).1.alarmState
        = AlarmState.OK ∧
      (runReadings 1 1 2 ⟨AlarmState.ALARM, 0, 2⟩ [2]).1.numberOfAlarmsLeftToTrigger
        = 1 ∧
      (runReadings 1 1 2 ⟨AlarmState.ALARM, 0, 2⟩ [2]).2 = []) :=
  ⟨by decide, by decide,
    (C2_exactly_N_consecutive_good_readings_recover 1 1 2 2 [2]
      (by decide) (by decide)).2.1 (by decide)⟩

/-- C4: for every trigger count `N ≥ 1`, after any sequence of readings
starting from `OK` with the counter at `N`, the debounce counter lies in
`[0, N]` (in `OK` it even lies in `[1, N]`, in `ALARM` in `[0, N-1]`). -/
theorem C4_counter_range_invariant
    (alarmMinVoltage : ℚ) (alarmNTriggers : ℤ) (readPeriodState p : ℚ)
    (vs : List ℚ) (hN : 1 ≤ alarmNTriggers) :
    0 ≤ (runReadings alarmMinVoltage alarmNTriggers readPeriodState
      ⟨AlarmState.OK, alarmNTriggers, p⟩ vs).1.numberOfAlarmsLeftToTrigger ∧
    (runReadings alarmMinVoltage alarmNTriggers readPeriodState
      ⟨AlarmState.OK, alarmNTriggers, p⟩ vs).1.numberOfAlarmsLeftToTrigger
        ≤ alarmNTriggers := by
  have hinv := runReadings_counterInv alarmMinVoltage alarmNTriggers readPeriodState
    hN vs ⟨AlarmState.OK, alarmNTriggers, p⟩ (counterInv_init alarmNTriggers p hN)
  by_cases hA : (runReadings alarmMinVoltage alarmNTriggers readPeriodState
      ⟨AlarmState.OK, alarmNTriggers, p⟩ vs).1.alarmState = AlarmState.OK
  · have hc := hinv.1 hA
    exact ⟨by omega, hc.2⟩
  · have hc := hinv.2 hA
    exact ⟨hc.1, by omega⟩

/-- C4 witness: `N = 2`, threshold `1`; after the three bad readings
`[0, 0, 0]` the counter lies in `[0, 2]`. -/
theorem C4_counter_range_invariant_witness :
    (1 : ℤ) ≤ 2 ∧
    (0 ≤ (runReadings 1 2 2 ⟨AlarmState.OK, 2, 2⟩
        [0, 0, 0]).1.numberOfAlarmsLeftToTrigger ∧
      (runReadings 1 2 2 ⟨AlarmState.OK, 2, 2⟩
        [0, 0, 0]).1.numberOfAlarmsLeftToTrigger ≤ 2) :=
  ⟨by decide, C4_counter_range_invariant 1 2 2 2 [0, 0, 0] (by decide)⟩

/-- C10: for every trigger count `N ≥ 1`, in any state reached from the
initial `OK`/counter-`N` state, if the machine is in `ALARM` and one more
reading moves it to `OK`, then the counter at that moment is exactly `N`:
the NORMAL state is re-entered fully re-armed even though the transition
branch never assigns the counter explicitly. -/
theorem C10_recovery_reenters_normal_fully_rearmed
    (alarmMinVoltage : ℚ) (alarmNTriggers : ℤ) (readPeriodState p : ℚ)
    (vs : List ℚ) (v : ℚ) (hN : 1 ≤ alarmNTriggers)
    (hA : (runReadings alarmMinVoltage alarmNTriggers readPeriodState
      ⟨AlarmState.OK, alarmNTriggers, p⟩ vs).1.alarmState = AlarmState.ALARM)
    (hT : (monitorStep alarmMinVoltage alarmNTriggers readPeriodState
      (runReadings alarmMinVoltage alarmNTriggers readPeriodState
        ⟨AlarmState.OK, alarmNTriggers, p⟩ vs).1 v).1.alarmState = AlarmState.OK) :
    (monitorStep alarmMinVoltage alarmNTriggers readPeriodState
      (runReadings alarmMinVoltage alarmNTriggers readPeriodState
        ⟨AlarmState.OK, alarmNTriggers, p⟩ vs).1 v).1.numberOfAlarmsLeftToTrigger
      = alarmNTriggers := by
  set s : MonitorState := (runReadings alarmMinVoltage alarmNTriggers readPeriodState
    ⟨AlarmState.OK, alarmNTriggers, p⟩ vs).1 with hs
  have hinv := runReadings_counterInv alarmMinVoltage alarmNTriggers readPeriodState
    hN vs ⟨AlarmState.OK, alarmNTriggers, p⟩ (counterInv_init alarmNTriggers p hN)
  rw [← hs] at hinv
  have h1' : ¬ s.alarmState = AlarmState.OK := by
    rw [hA]; intro hq; exact absurd hq (by decide)
  have hc := hinv.2 h1'
  by_cases h2 : v < alarmMinVoltage
  · rw [monitorStep_alarm_bad alarmMinVoltage alarmNTriggers readPeriodState s v h1' h2]
      at hT
    exact absurd (show s.alarmState = AlarmState.OK from hT) h1'
  · by_cases h3 : s.numberOfAlarmsLeftToTrigger + 1 ≥ alarmNTriggers
    · rw [monitorStep_alarm_good_rec alarmMinVoltage alarmNTriggers readPeriodState
        s v h1' h2 h3]
      show s.numberOfAlarmsLeftToTrigger + 1 = alarmNTriggers
      omega
    · rw [monitorStep_alarm_good_cont alarmMinVoltage alarmNTriggers readPeriodState
        s v h1' h2 h3] at hT
      exact absurd (show s.alarmState = AlarmState.OK from hT) h1'

/-- C10 witness: `N = 1`, threshold `1`; after the bad reading `[0]` the
machine is in `ALARM`, and the good reading `2` moves it to `OK` with the
counter exactly `1`. -/
theorem C10_recovery_reenters_normal_fully_rearmed_witness :
    (1 : ℤ) ≤ 1 ∧
    (runReadings 1 1 2 ⟨AlarmState.OK, 1, 2⟩ [0]).1.alarmState = AlarmState.ALARM ∧
    (monitorStep 1 1 2 (runReadings 1 1 2 ⟨AlarmState.OK, 1, 2⟩ [0]).1
      2).1.alarmState = AlarmState.OK ∧
    (monitorStep 1 1 2 (runReadings 1 1 2 ⟨AlarmState.OK, 1, 2⟩ [0]).1
      2).1.numberOfAlarmsLeftToTrigger = 1 :=
  ⟨by decide, by decide, by decide,
    C10_recovery_reenters_normal_fully_rearmed 1 1 2 2 [0] 2
      (by decide) (by decide) (by decide)⟩

/-- C3: on any step that moves the machine from `OK` (NORMAL) to `ALARM`,
exactly one CRITICAL notification request is produced and the dispatch loop
calls every registered handler once with it; on any step that moves the
machine from `ALARM` back to `OK`, no request is produced and no handler is
called (recovery is silent). -/
theorem C3_critical_on_alarm_edge_silent_recovery
    (alarmMinVoltage : ℚ) (alarmNTriggers : ℤ) (readPeriodState : ℚ)
    (alarmHandlers : List ℕ) (s : MonitorState) (v : ℚ) :
    ((s.alarmState = AlarmState.OK →
      (monitorStep alarmMinVoltage alarmNTriggers readPeriodState s v).1.alarmState
        = AlarmState.ALARM →
      (monitorStep alarmMinVoltage alarmNTriggers readPeriodState s v).2
        = some logging.CRITICAL ∧
      alarmDispatchCalls alarmHandlers
        (monitorStep alarmMinVoltage alarmNTriggers readPeriodState s v).2
        = alarmHandlers.map (fun handler => (handler, logging.CRITICAL))) ∧
    (s.alarmState = AlarmState.ALARM →
      (monitorStep alarmMinVoltage alarmNTriggers readPeriodState s v).1.alarmState
        = AlarmState.OK →
      (monitorStep alarmMinVoltage alarmNTriggers readPeriodState s v).2 = none ∧
      alarmDispatchCalls alarmHandlers
        (monitorStep alarmMinVoltage alarmNTriggers readPeriodState s v).2 = [])) := by
  constructor
  · intro h1 hT
    by_cases h2 : v < alarmMinVoltage
    · by_cases h3 : s.numberOfAlarmsLeftToTrigger - 1 < 1
      · rw [monitorStep_ok_bad_trigger alarmMinVoltage alarmNTriggers readPeriodState
          s v h1 h2 h3]
        exact ⟨rfl, rfl⟩
      · rw [monitorStep_ok_bad_cont alarmMinVoltage alarmNTriggers readPeriodState
          s v h1 h2 h3] at hT
        exact absurd (show AlarmState.OK = AlarmState.ALARM from h1 ▸ hT) (by decide)
    · rw [monitorStep_ok_good alarmMinVoltage alarmNTriggers readPeriodState
        s v h1 h2] at hT
      exact absurd (show AlarmState.OK = AlarmState.ALARM from hT) (by decide)
  · intro h1 hT
    have h1' : ¬ s.alarmState = AlarmState.OK := by
      rw [h1]; intro hq; exact absurd hq (by decide)
    by_cases h2 : v < alarmMinVoltage
    · rw [monitorStep_alarm_bad alarmMinVoltage alarmNTriggers readPeriodState
        s v h1' h2] at hT
      exact absurd (show s.alarmState = AlarmState.OK from hT) h1'
    · by_cases h3 : s.numberOfAlarmsLeftToTrigger + 1 ≥ alarmNTriggers
      · rw [monitorStep_alarm_good_rec alarmMinVoltage alarmNTriggers readPeriodState
          s v h1' h2 h3]
        exact ⟨rfl, rfl⟩
      · rw [monitorStep_alarm_good_cont alarmMinVoltage alarmNTriggers readPeriodState
          s v h1' h2 h3] at hT
        exact absurd (show s.alarmState = AlarmState.OK from hT) h1'

/-- C3 witness: with handlers `[3, 4]`, the alarm edge from `⟨OK, 1⟩` on
reading `0` produces one CRITICAL request dispatched to both handlers, and
the recovery edge from `⟨ALARM, 0⟩` (with `N = 1`) on reading `2` produces
nothing. -/
theorem C3_critical_on_alarm_edge_silent_recovery_witness :
    ((monitorStep 1 1 2 ⟨AlarmState.OK, 1, 2⟩ 0).2 = some logging.CRITICAL ∧
      alarmDispatchCalls [3, 4] (monitorStep 1 1 2 ⟨AlarmState.OK, 1, 2⟩ 0).2
        = [3, 4].map (fun handler => (handler, logging.CRITICAL))) ∧
    ((monitorStep 1 1 2 ⟨AlarmState.ALARM, 0, 2⟩ 2).2 = none ∧
      alarmDispatchCalls [3, 4] (monitorStep 1 1 2 ⟨AlarmState.ALARM, 0, 2⟩ 2).2
        = []) :=
  ⟨(C3_critical_on_alarm_edge_silent_recovery 1 1 2 [3, 4]
      ⟨AlarmState.OK, 1, 2⟩ 0).1 (by decide) (by decide),
    (C3_critical_on_alarm_edge_silent_recovery 1 1 2 [3, 4]
      ⟨AlarmState.ALARM, 0, 2⟩ 2).2 (by decide) (by decide)⟩

/-- C7: the `readPeriod` returned by a step (used for the next sleep) is the
fast-retry value `1` exactly when this cycle's reading was below threshold
while the machine was in `OK` — including the step on which that reading
causes the transition to `ALARM`; in every other case, and in particular for
every reading taken while in `ALARM`, the step's opening reset leaves it at
the steady-state value `readPeriodState`, whatever period the previous cycle
used. -/
theorem C7_fast_retry_poll_period
    (alarmMinVoltage : ℚ) (alarmNTriggers : ℤ) (readPeriodState : ℚ)
    (s : MonitorState) (v : ℚ) :
    ((s.alarmState = AlarmState.OK → v < alarmMinVoltage →
      (monitorStep alarmMinVoltage alarmNTriggers readPeriodState s v).1.readPeriod
        = 1) ∧
    (s.alarmState = AlarmState.OK → ¬ v < alarmMinVoltage →
      (monitorStep alarmMinVoltage alarmNTriggers readPeriodState s v).1.readPeriod
        = readPeriodState) ∧
    (¬ s.alarmState = AlarmState.OK →
      (monitorStep alarmMinVoltage alarmNTriggers readPeriodState s v).1.readPeriod
        = readPeriodState)) := by
  refine ⟨?_, ?_, ?_⟩
  · intro h1 h2
    by_cases h3 : s.numberOfAlarmsLeftToTrigger - 1 < 1
    · rw [monitorStep_ok_bad_trigger alarmMinVoltage alarmNTriggers readPeriodState
        s v h1 h2 h3]
    · rw [monitorStep_ok_bad_cont alarmMinVoltage alarmNTriggers readPeriodState
        s v h1 h2 h3]
  · intro h1 h2
    rw [monitorStep_ok_good alarmMinVoltage alarmNTriggers readPeriodState s v h1 h2]
  · intro h1
    by_cases h2 : v < alarmMinVoltage
    · rw [monitorStep_alarm_bad alarmMinVoltage alarmNTriggers readPeriodState
        s v h1 h2]
    · by_cases h3 : s.numberOfAlarmsLeftToTrigger + 1 ≥ alarmNTriggers
      · rw [monitorStep_alarm_good_rec alarmMinVoltage alarmNTriggers readPeriodState
          s v h1 h2 h3]
      · rw [monitorStep_alarm_good_cont alarmMinVoltage alarmNTriggers readPeriodState
          s v h1 h2 h3]

/-- C7 witness: with steady-state period `2` and previous-cycle period `5`:
a bad reading in `OK` (here one that also triggers the alarm, `N = 2` is not
reached) gives period `1`; a good reading in `OK` and a bad reading in
`ALARM` both give the steady-state `2`. -/
theorem C7_fast_retry_poll_period_witness :
    (monitorStep 1 2 2 ⟨AlarmState.OK, 1, 5⟩ 0).1.readPeriod = 1 ∧
    (monitorStep 1 2 2 ⟨AlarmState.OK, 2, 5⟩ 2).1.readPeriod = 2 ∧
    (monitorStep 1 2 2 ⟨AlarmState.ALARM, 0, 5⟩ 0).1.readPeriod = 2 :=
  ⟨(C7_fast_retry_poll_period 1 2 2 ⟨AlarmState.OK, 1, 5⟩ 0).1
      (by decide) (by decide),
    (C7_fast_retry_poll_period 1 2 2 ⟨AlarmState.OK, 2, 5⟩ 2).2.1
      (by decide) (by decide),
    (C7_fast_retry_poll_period 1 2 2 ⟨AlarmState.ALARM, 0, 5⟩ 0).2.2
      (by decide)⟩

lemma monitorCycle_def (alarmMinVoltage : ℚ) (alarmNTriggers : ℤ)
    (readPeriodState infoPeriod : ℚ) (alarmHandlers : List ℕ)
    (s : MonitorState) (nextInfoTrigger : ℚ) (adcVal : ℕ) (now : ℚ) :
    monitorCycle alarmMinVoltage alarmNTriggers readPeriodState infoPeriod
      alarmHandlers s nextInfoTrigger adcVal now
      = ((monitorStep alarmMinVoltage alarmNTriggers readPeriodState s
            (adcValVolts adcVal)).1,
         (infoTriggerStep infoPeriod now nextInfoTrigger).1,
         alarmDispatchCalls alarmHandlers
           (monitorStep alarmMinVoltage alarmNTriggers readPeriodState s
             (adcValVolts adcVal)).2
           ++ infoDispatchCalls alarmHandlers
                (infoTriggerStep infoPeriod now nextInfoTrigger).2) := rfl

/-- C8: the heartbeat deadline starts as `now + infoPeriod`; on every cycle
whose current time has passed the deadline, the new deadline is recomputed as
`now + infoPeriod`, which (the interval being positive) lies strictly beyond
the old one, and an INFO-severity status notification is dispatched to every
registered handler — for every monitor state and reading, i.e. regardless of
alarm-state transitions. -/
theorem C8_heartbeat_deadline_and_dispatch
    (alarmMinVoltage : ℚ) (alarmNTriggers : ℤ)
    (readPeriodState infoPeriod : ℚ) (alarmHandlers : List ℕ)
    (s : MonitorState) (nextInfoTrigger : ℚ) (adcVal : ℕ) (now : ℚ)
    (hip : 0 < infoPeriod) (hd : nextInfoTrigger < now) :
    (nextInfoTriggerInit now infoPeriod = now + infoPeriod ∧
    (monitorCycle alarmMinVoltage alarmNTriggers readPeriodState infoPeriod
      alarmHandlers s nextInfoTrigger adcVal now).2.1 = now + infoPeriod ∧
    nextInfoTrigger < (monitorCycle alarmMinVoltage alarmNTriggers readPeriodState
      infoPeriod alarmHandlers s nextInfoTrigger adcVal now).2.1 ∧
    ∀ handler ∈ alarmHandlers, (handler, logging.INFO) ∈
      (monitorCycle alarmMinVoltage alarmNTriggers readPeriodState infoPeriod
        alarmHandlers s nextInfoTrigger adcVal now).2.2) := by
  have hhb : infoTriggerStep infoPeriod now nextInfoTrigger = (now + infoPeriod, true) := by
    unfold infoTriggerStep
    rw [if_pos hd]
  rw [monitorCycle_def, hhb]
  refine ⟨rfl, rfl, ?_, ?_⟩
  · show nextInfoTrigger < now + infoPeriod
    linarith
  · intro handler hh
    show (handler, logging.INFO) ∈ _ ++ infoDispatchCalls alarmHandlers true
    refine List.mem_append_right _ ?_
    show (handler, logging.INFO) ∈ alarmHandlers.map (fun h => (h, logging.INFO))
    exact List.mem_map_of_mem _ hh

/-- C8 witness: interval `5`, deadline `0` already passed at time `1`: the new
deadline is `1 + 5`, strictly beyond `0`, and handler `7` receives an INFO
call — here while the alarm state machine simultaneously transitions
`OK → ALARM` on the bad raw sample `0`. -/
theorem C8_heartbeat_deadline_and_dispatch_witness :
    (0 : ℚ) < 5 ∧ (0 : ℚ) < 1 ∧
    (nextInfoTriggerInit 1 5 = 1 + 5 ∧
    (monitorCycle 1 1 2 5 [7] ⟨AlarmState.OK, 1, 2⟩ 0 0 1).2.1 = 1 + 5 ∧
    (0 : ℚ) < (monitorCycle 1 1 2 5 [7] ⟨AlarmState.OK, 1, 2⟩ 0 0 1).2.1 ∧
    ∀ handler ∈ [7], (handler, logging.INFO) ∈
      (monitorCycle 1 1 2 5 [7] ⟨AlarmState.OK, 1, 2⟩ 0 0 1).2.2) :=
  ⟨by decide, by decide,
    C8_heartbeat_deadline_and_dispatch 1 1 2 5 [7] ⟨AlarmState.OK, 1, 2⟩ 0 0 1
      (by decide) (by decide)⟩

/-- C9: the voltage reading the loop feeds to the state machine is exactly
the raw integer sample times `1.8 / 1023` — the exact scale constant of a
10-bit ADC (full scale `2^10 - 1 = 1023`) over a 1.8V reference — for every
raw sample value, and `monitorCycle` feeds exactly this value to
`monitorStep`. -/
theorem C9_adc_scale_exact (adcVal : ℕ) :
    adcValVolts adcVal = (adcVal : ℚ) * (1.8 / 1023) ∧
    adcValVolts adcVal * 1023 = (adcVal : ℚ) * 1.8 ∧
    ADC_SCALE_TO_V = 1.8 / ((2 : ℚ) ^ 10 - 1) ∧
    ADC_SCALE_TO_V = 9 / 5115 := by
  refine ⟨rfl, ?_, by norm_num [ADC_SCALE_TO_V], by norm_num [ADC_SCALE_TO_V]⟩
  unfold adcValVolts ADC_SCALE_TO_V
  field_simp

/-- C5 — the code contradicts the claim: at `args.alarm_tri = 0` the startup
code computes the clamped `alarmNTriggers = 1` (lines 180-182) but then
passes the raw `args.alarm_tri = 0` to `monitor` (line 189), so the loop IS
entered with a trigger count below 1; there, a single bad reading alarms
immediately with the counter driven to `-1`.  The dead clamp computation
shows the claimed behaviour was the intent and the call site a slip. -/
theorem C5_nonpositive_trigger_count_reaches_monitor :
    main_alarmNTriggers 0 = 1 ∧
    monitor_arg_alarmNTriggers 0 = 0 ∧
    monitor_arg_alarmNTriggers 0 < 1 ∧
    ¬ monitor_arg_alarmNTriggers 0 = main_alarmNTriggers 0 ∧
    (monitorStep 1 (monitor_arg_alarmNTriggers 0) 2
      ⟨AlarmState.OK, monitor_arg_alarmNTriggers 0, 2⟩ 0).1.alarmState
        = AlarmState.ALARM ∧
    (monitorStep 1 (monitor_arg_alarmNTriggers 0) 2
      ⟨AlarmState.OK, monitor_arg_alarmNTriggers 0, 2⟩ 0).1.numberOfAlarmsLeftToTrigger
        = -1 := by
  refine ⟨rfl, rfl, by decide, by decide, by decide, by decide⟩

/-- C6 counterexample: a failure inside the buzzer sink's `trigger` at
CRITICAL severity escapes `trigger` unchanged (there is no try/except around
the tone calls, lines 54-65), and therefore aborts the driver's dispatch
loop, contradicting the claim that a failure in any sink never escapes to
the driver loop. -/
theorem C6_buzzer_failure_escapes_counterexample :
    BuzzerAlarmHandler.trigger logging.CRITICAL
        (Except.error "tone generator fault")
      = Except.error "tone generator fault" ∧
    dispatchAll [(EMailAlarmHandler.trigger (Except.ok ())).1,
        BuzzerAlarmHandler.trigger logging.CRITICAL
          (Except.error "tone generator fault")]
      = Except.error "tone generator fault" :=
  ⟨rfl, rfl⟩

/-- C6 amended: a failure inside the e-mail sink's `trigger` is caught and
logged at CRITICAL and never escapes to the driver loop; the buzzer sink has
no failure boundary — at severities `≥ ERROR` whatever outcome its external
tone calls have escapes to the caller unchanged (at lower severities it does
nothing and cannot fail). -/
theorem C6_email_isolated_buzzer_not (smtpOutcome : Except String Unit) :
    ((EMailAlarmHandler.trigger smtpOutcome).1 = Except.ok ()) ∧
    (∀ e, smtpOutcome = Except.error e →
      (EMailAlarmHandler.trigger smtpOutcome).2
        = [(logging.CRITICAL, "Failed to send e-mail " ++ e)]) ∧
    (∀ severity, logging.ERROR ≤ severity →
      BuzzerAlarmHandler.trigger severity smtpOutcome = smtpOutcome) ∧
    (∀ severity, severity < logging.ERROR →
      BuzzerAlarmHandler.trigger severity smtpOutcome = Except.ok ()) := by
  refine ⟨?_, ?_, ?_, ?_⟩
  · cases smtpOutcome with
    | ok u => cases u; rfl
    | error e => rfl
  · intro e he
    cases smtpOutcome with
    | ok u => exact absurd he (by simp)
    | error f =>
        cases he
        rfl
  · intro severity hsev
    unfold BuzzerAlarmHandler.trigger
    rw [if_pos hsev]
  · intro severity hsev
    unfold BuzzerAlarmHandler.trigger
    rw [if_neg (by omega)]

/-- C6 amended witness: a failed SMTP session is swallowed and logged by the
e-mail sink, while a failed tone sequence escapes the buzzer sink at
CRITICAL and is a no-op at INFO. -/
theorem C6_email_isolated_buzzer_not_witness :
    (EMailAlarmHandler.trigger (Except.error "connection refused")).1
      = Except.ok () ∧
    (EMailAlarmHandler.trigger (Except.error "connection refused")).2
      = [(logging.CRITICAL, "Failed to send e-mail " ++ "connection refused")] ∧
    BuzzerAlarmHandler.trigger logging.CRITICAL (Except.error "hardware fault")
      = Except.error "hardware fault" ∧
    BuzzerAlarmHandler.trigger logging.INFO (Except.error "hardware fault")
      = Except.ok () :=
  ⟨(C6_email_isolated_buzzer_not (Except.error "connection refused")).1,
    (C6_email_isolated_buzzer_not (Except.error "connection refused")).2.1
      "connection refused" rfl,
    (C6_email_isolated_buzzer_not (Except.error "hardware fault")).2.2.1
      logging.CRITICAL (by decide),
    (C6_email_isolated_buzzer_not (Except.error "hardware fault")).2.2.2
      logging.INFO (by decide)⟩

end PowerDetector
